import Mathlib

/-!
Shallow embedding of the canvas-mirror subsystem of the NotPX bot
(`src/bot/core/canvas_updater/dynamic_canvas_renderer.py`,
`src/bot/core/canvas_updater/websocket_manager.py`, `src/bot/core/notpxbot.py`),
together with theorems settling the specification claims about it.

Python integers are modelled as `Int` (with `Int.emod`/`Int.ediv` for `%` and
`//`, which agree with Python floor semantics for the positive divisors used
here), byte buffers as functions `Nat → Nat` storing bytes mod 256, and
fallible Python code (exceptions) as `Option`/`Except` values.
-/

namespace NotPx

/-! ## Pixel codec (`DynamicCanvasRenderer` constants and pure helpers) -/

def CANVAS_SIZE : Nat := 1000

def DYNAMITE_COLOR : String := "#171F2A"

def DYNAMITE_SIZE : Nat := 5

def PUMPKIN_SIZE : Nat := 7

/-- `DynamicCanvasRenderer.PUMPKIN_COLORS`: the 49-entry (7×7) pumpkin
stencil color list, verbatim from the source. -/
def PUMPKIN_COLORS : List String :=
  ["#ff8600", "#ff1600", "#ff8600", "#ff1600", "#ff8600", "#ff1600", "#ff8600",
   "#ff1600", "#ff8600", "#ff1600", "#fdbf13", "#ff1600", "#ff8600", "#ff1600",
   "#ff8600", "#ff1600", "#fdbf13", "#ff1600", "#fdbf13", "#ff1600", "#ff8600",
   "#ff1600", "#fdbf13", "#ff1600", "#fdbf13", "#ff1600", "#fdbf13", "#ff1600",
   "#ff8600", "#ff1600", "#fdbf13", "#ff1600", "#fdbf13", "#ff1600", "#ff8600",
   "#ff1600", "#ff8600", "#ff1600", "#fdbf13", "#ff1600", "#ff8600", "#ff1600",
   "#ff8600", "#ff1600", "#ff8600", "#ff1600", "#ff8600", "#ff1600", "#ff8600"]

/-- Value of a hexadecimal digit character, if it is one. -/
def hexVal (c : Char) : Option Nat :=
  if ('0' ≤ c ∧ c ≤ '9') then some (c.toNat - 48)
  else if ('a' ≤ c ∧ c ≤ 'f') then some (c.toNat - 87)
  else if ('A' ≤ c ∧ c ≤ 'F') then some (c.toNat - 55)
  else none

/-- Digits of a base-16 literal after the first digit: hex digits with single
underscores allowed between digits (Python's numeric-literal rule). -/
def hexDigitsRest (acc : Nat) : List Char → Option Nat
  | [] => some acc
  | '_' :: d :: rest => do
      let v ← hexVal d
      hexDigitsRest (acc * 16 + v) rest
  | '_' :: [] => none
  | c :: rest => do
      let v ← hexVal c
      hexDigitsRest (acc * 16 + v) rest

/-- A nonempty run of hex digits (underscore-separated), Python style. -/
def hexDigits : List Char → Option Nat
  | [] => none
  | c :: rest => do
      let v ← hexVal c
      hexDigitsRest v rest

/-- Digit part of `int(s, 16)` after the optional sign: an optional `0x`/`0X`
prefix (optionally followed by one underscore) and then hex digits. -/
def hexBody : List Char → Option Nat
  | '0' :: 'x' :: '_' :: rest => hexDigits rest
  | '0' :: 'x' :: rest => hexDigits rest
  | '0' :: 'X' :: '_' :: rest => hexDigits rest
  | '0' :: 'X' :: rest => hexDigits rest
  | l => hexDigits l

/-- Strip leading and trailing whitespace (Python `str.strip` as applied by
`int`). -/
def pyStrip (l : List Char) : List Char :=
  ((l.dropWhile Char.isWhitespace).reverse.dropWhile Char.isWhitespace).reverse

/-- Python `int(s, 16)`: strip whitespace, optional sign, optional `0x`
prefix, hex digits; `none` models the `ValueError` raised otherwise. -/
def pyIntHex16 (s : String) : Option Int :=
  match pyStrip s.toList with
  | '+' :: rest => (hexBody rest).map (fun n => (n : Int))
  | '-' :: rest => (hexBody rest).map (fun n => -(n : Int))
  | l => (hexBody l).map (fun n => (n : Int))

/-- Python string slice `s[a:b]` for `0 ≤ a ≤ b` (clamped to the length). -/
def pySlice (s : String) (a b : Nat) : String :=
  String.mk ((s.toList.drop a).take (b - a))

/-- Python `str.upper()` (the source only applies it to ASCII stamp-type
names). -/
def pyUpper (s : String) : String :=
  String.mk (s.toList.map Char.toUpper)

/-- `DynamicCanvasRenderer._hex_to_rgb`: Python
`tuple(int(hex_color[i:i+2], 16) for i in (1, 3, 5))`; the first slice that
fails to parse raises (models as `none`). -/
def hex_to_rgb (hex_color : String) : Option (Int × Int × Int) := do
  let r ← pyIntHex16 (pySlice hex_color 1 3)
  let g ← pyIntHex16 (pySlice hex_color 3 5)
  let b ← pyIntHex16 (pySlice hex_color 5 7)
  some (r, g, b)

/-- `DynamicCanvasRenderer._pixel_id_to_xy`: `((id-1) % W, (id-1) // W)`.
Python `%`/`//` with the positive divisor 1000 coincide with `emod`/`ediv`. -/
def pixel_id_to_xy (pixel_id : Int) : Int × Int :=
  ((pixel_id - 1) % (CANVAS_SIZE : Int), (pixel_id - 1) / (CANVAS_SIZE : Int))

/-- `DynamicCanvasRenderer._xy_to_pixel_id`: `y * W + x + 1`. -/
def xy_to_pixel_id (x y : Int) : Int :=
  y * (CANVAS_SIZE : Int) + x + 1

/-- Uppercase hex digit character for a value below 16. -/
def hexDigitUpper (n : Nat) : Char :=
  if n < 10 then Char.ofNat (48 + n) else Char.ofNat (55 + n)

/-- Python `f"{n:02X}"` for a byte value: two uppercase hex digits
(zero-padded); wider for values of 256 and above. -/
def pyFormat02X (n : Nat) : String :=
  if n < 16 then String.mk ['0', hexDigitUpper n]
  else if n < 256 then String.mk [hexDigitUpper (n / 16), hexDigitUpper (n % 16)]
  else String.mk ((Nat.toDigits 16 n).map Char.toUpper)

/-- A template/canvas pixel as an RGBA byte quadruple. -/
structure RGBA where
  r : Nat
  g : Nat
  b : Nat
  a : Nat
deriving DecidableEq

/-- `DynamicCanvasRenderer.rgba_to_hex`: `f"#{r:02X}{g:02X}{b:02X}"`
(alpha dropped). -/
def rgba_to_hex (p : RGBA) : String :=
  "#" ++ pyFormat02X p.r ++ pyFormat02X p.g ++ pyFormat02X p.b

/-! ## Canvas raster (`DynamicCanvasRenderer` byte buffer) -/

/-- Total byte length of the canvas buffer: 1000 × 1000 × 4. -/
def CANVAS_BYTES : Nat := CANVAS_SIZE * CANVAS_SIZE * 4

/-- The canvas buffer: byte value at each index of `[0, CANVAS_BYTES)`. -/
def Canvas : Type := Nat → Nat

/-- The all-zero canvas buffer. -/
def zeroCanvas : Canvas := fun _ => 0

/-- Resolve a (possibly negative) numpy index against a buffer of length `L`:
negative indices count from the end; out-of-range indices raise `IndexError`
(modelled as `none`). -/
def resolveIdx (L : Nat) (i : Int) : Option Nat :=
  if 0 ≤ i ∧ i < (L : Int) then some i.toNat
  else if -(L : Int) ≤ i ∧ i < 0 then some ((L : Int) + i).toNat
  else none

/-- One numpy byte store `arr[i] = v` on the canvas buffer (uint8: stored
mod 256). -/
def npSetByte (c : Canvas) (i : Int) (v : Int) : Option Canvas := do
  let j ← resolveIdx CANVAS_BYTES i
  some (Function.update c j (v % 256).toNat)

/-- The four consecutive byte stores shared by every pixel write in the
renderer: R, G, B at `base`, `base+1`, `base+2` and alpha 255 at `base+3`. -/
def writeRGBA (c : Canvas) (base : Int) (r g b : Int) : Option Canvas := do
  let c1 ← npSetByte c base r
  let c2 ← npSetByte c1 (base + 1) g
  let c3 ← npSetByte c2 (base + 2) b
  npSetByte c3 (base + 3) 255

/-- Read the RGBA quadruple stored for pixel id `id` (bytes at
`(id-1)*4 ..`). -/
def readPixel (c : Canvas) (id : Nat) : Nat × Nat × Nat × Nat :=
  ((c ((id - 1) * 4), c ((id - 1) * 4 + 1), c ((id - 1) * 4 + 2), c ((id - 1) * 4 + 3)))

/-- Read the RGBA quadruple stored for coordinates `(x, y)`. -/
def readPixelXY (c : Canvas) (x y : Nat) : Nat × Nat × Nat × Nat :=
  readPixel c (y * CANVAS_SIZE + x + 1)

/-- `DynamicCanvasRenderer.set_pixel`: skip ids above `CANVAS_SIZE²`,
otherwise write the parsed color with alpha 255 at `(pixel_id - 1) * 4`. -/
def set_pixel (c : Canvas) (pixel_id : Int) (hex_color : String) : Option Canvas :=
  if pixel_id > ((CANVAS_SIZE : Int) * (CANVAS_SIZE : Int)) then some c
  else do
    let rgb ← hex_to_rgb hex_color
    writeRGBA c ((pixel_id - 1) * 4) rgb.1 rgb.2.1 rgb.2.2

/-- Inner loop of `DynamicCanvasRenderer._paint_pixels` for one color entry:
each listed id above `CANVAS_SIZE²` is skipped, every other id gets the
parsed color with alpha 255 at `(pixel_id - 1) * 4`. -/
def paintIds (c : Canvas) (hex_color : String) : List Int → Option Canvas
  | [] => some c
  | pixel_id :: rest =>
    if pixel_id > ((CANVAS_SIZE : Int) * (CANVAS_SIZE : Int)) then paintIds c hex_color rest
    else do
      let rgb ← hex_to_rgb hex_color
      let c' ← writeRGBA c ((pixel_id - 1) * 4) rgb.1 rgb.2.1 rgb.2.2
      paintIds c' hex_color rest

/-- `DynamicCanvasRenderer._paint_pixels`: iterate the color → id-list map in
order, skipping the entry whose key is exactly `"#171F2A"`. -/
def paint_pixels (c : Canvas) : List (String × List Int) → Option Canvas
  | [] => some c
  | (hex_color, ids) :: rest =>
    if hex_color = "#171F2A" then paint_pixels c rest
    else do
      let c' ← paintIds c hex_color ids
      paint_pixels c' rest

/-- One datum of an `event:message` payload: `{"pixel": id, "type": name}`. -/
structure SquareDatum where
  pixel : Int
  stampType : String

/-- `getattr(self, name + "_SIZE")` for the class attributes ending in
`_SIZE` (`CANVAS_SIZE`, `DYNAMITE_SIZE`, `PUMPKIN_SIZE`); any other name
raises `AttributeError` (modelled as `none`). -/
def attrSizeLookup (name : String) : Option Nat :=
  if name = "CANVAS" then some CANVAS_SIZE
  else if name = "DYNAMITE" then some DYNAMITE_SIZE
  else if name = "PUMPKIN" then some PUMPKIN_SIZE
  else none

/-- Cell loop of `DynamicCanvasRenderer._paint_squares`: for the `i`-th color,
`px = x + (i % CANVAS_SIZE)` and `py = y + (i // CANVAS_SIZE)` (note: the
source divides the enumeration index by `CANVAS_SIZE`, not by the stamp
size), then four byte stores at `(px + py * CANVAS_SIZE) * 4`. -/
def paintCells (c : Canvas) (x y : Int) : Nat → List String → Option Canvas
  | _, [] => some c
  | i, color :: rest => do
    let px := x + ((i % CANVAS_SIZE : Nat) : Int)
    let py := y + ((i / CANVAS_SIZE : Nat) : Int)
    let rgb ← hex_to_rgb color
    let c' ← writeRGBA c ((px + py * (CANVAS_SIZE : Int)) * 4) rgb.1 rgb.2.1 rgb.2.2
    paintCells c' x y (i + 1) rest

/-- `DynamicCanvasRenderer._paint_squares`: skip data whose center id exceeds
`CANVAS_SIZE²`; otherwise subtract half the stamp size (looked up via
`getattr` on the uppercased type) from the center's coordinates, choose the
pumpkin stencil or 25 copies of the dynamite color, and run the cell loop. -/
def paint_squares (c : Canvas) : List SquareDatum → Option Canvas
  | [] => some c
  | d :: rest =>
    if d.pixel > ((CANVAS_SIZE : Int) * (CANVAS_SIZE : Int)) then paint_squares c rest
    else do
      let xy := pixel_id_to_xy d.pixel
      let size ← attrSizeLookup (pyUpper d.stampType)
      let x := xy.1 - ((size / 2 : Nat) : Int)
      let y := xy.2 - ((size / 2 : Nat) : Int)
      let colors := if d.stampType = "Pumpkin" then PUMPKIN_COLORS
                    else List.replicate (DYNAMITE_SIZE * DYNAMITE_SIZE) DYNAMITE_COLOR
      let c' ← paintCells c x y 0 colors
      paint_squares c' rest

/-- Payload of a WebSocket canvas update, shaped by its channel. -/
inductive ChannelData where
  | squares (l : List SquareDatum)
  | pixelMap (m : List (String × List Int))

/-- `DynamicCanvasRenderer.update_canvas`: dispatch on the `channel` string;
any other channel leaves the canvas untouched. A payload whose shape does not
match the channel would raise in Python (modelled as `none`). -/
def update_canvas (c : Canvas) (channel : String) (data : ChannelData) : Option Canvas :=
  if channel = "event:message" then
    match data with
    | .squares l => paint_squares c l
    | _ => none
  else if channel = "pixel:message" then
    match data with
    | .pixelMap m => paint_pixels c m
    | _ => none
  else some c

/-! ## Token expiry (`WebSocketManager._is_token_expired`) -/

/-- Observable decode outcome of the stored websocket token, abstracting the
`jwt.decode(token, options={"verify_signature": False})` call:
`absent` (token `None` or empty), `undecodable` (`jwt.InvalidTokenError`),
`payloadNoExp` (decoded payload without an `"exp"` key), or
`payloadExp exp` (payload with `"exp"` in Unix seconds). -/
inductive TokenView where
  | absent
  | undecodable
  | payloadNoExp
  | payloadExp (exp : Int)

/-- `WebSocketManager._is_token_expired` at current time `now` (Unix
seconds): absent tokens and `jwt.InvalidTokenError` decode failures report
expired; a decoded payload lacking `"exp"` raises `KeyError` (uncaught);
otherwise compare `now + 5 minutes ≥ exp`. -/
def is_token_expired (token : TokenView) (now : Int) : Except String Bool :=
  match token with
  | .absent => .ok true
  | .undecodable => .ok true
  | .payloadNoExp => .error "KeyError"
  | .payloadExp exp => .ok (decide (now + 5 * 60 ≥ exp))

/-! ## Session failover (`WebSocketManager._switch_to_next_session`) -/

/-- The session-pool state relevant to failover: the ordered list of session
ids and the id of the active session, if any. Activation's connection side
effects are abstracted to moving the active pointer. -/
structure WSState where
  sessions : List String
  active : Option String
deriving DecidableEq

/-- Index of the active session in the list (first match by id), `-1` when
there is no active session or its id is not found — the Python
`next((i for i, s in enumerate(self.sessions) if s.id == ...), -1)`. -/
def currentIndex (st : WSState) : Int :=
  match st.active with
  | none => -1
  | some aid =>
    match st.sessions.findIdx? (fun s => s = aid) with
    | some i => (i : Int)
    | none => -1

/-- `WebSocketManager._switch_to_next_session`: raise
`NoAvailableSessionsError` on an empty pool; compute
`next_index = (current_index + 1) % len(sessions)` (Python `%`, positive
divisor = `emod`); raise `NoAvailableSessionsError` when it equals
`current_index`; otherwise activate the session at `next_index`. -/
def switch_to_next_session (st : WSState) : Except String WSState :=
  if st.sessions.isEmpty then .error "NoAvailableSessionsError"
  else
    let current_index := currentIndex st
    let next_index := (current_index + 1) % (st.sessions.length : Int)
    if next_index = current_index then .error "NoAvailableSessionsError"
    else
      match st.sessions.get? next_index.toNat with
      | some sid => .ok { st with active := some sid }
      | none => .error "IndexError"

/-! ## Template painter (`NotPXBot._paint_pixel` / `NotPXBot._paint_pixels`) -/

/-- Painter state threaded through the scan: remaining charges, balance and
the canvas snapshot the scan reads (`self._canvas_renderer.get_canvas`). -/
structure BotState where
  charges : Int
  balance : Int
  canvas : Canvas

/-- Payload of one `repaint/start` HTTP request:
`{"pixelId": ..., "newColor": ...}`. -/
structure PaintRequest where
  pixelId : Int
  newColor : String
deriving DecidableEq

/-- Outcome of one `repaint/start` HTTP request: success with the `balance`
field of the response JSON, or an HTTP error (`raise_for_status`). -/
inductive PaintResponse where
  | success (newBalance : Int)
  | failure

/-- Read the RGB triple of `canvas_2d[canvas_y, canvas_x]` (numpy 2-D
indexing: negative indices count from the end, out-of-range raises). -/
def canvasPixelRGB (c : Canvas) (canvas_y canvas_x : Int) : Option (Nat × Nat × Nat) := do
  let y ← resolveIdx CANVAS_SIZE canvas_y
  let x ← resolveIdx CANVAS_SIZE canvas_x
  let base := (y * CANVAS_SIZE + x) * 4
  some (c base, c (base + 1), c (base + 2))

/-- `NotPXBot._paint_pixel`: build the request from `rgba_to_hex` of the
template pixel and `_xy_to_pixel_id` of the canvas coordinates; on HTTP
failure `raise_for_status` raises (`none`); on success decrement `_charges`
by one and take the response balance when it exceeds the current one. The
canvas is not touched. Returns the new state and the issued request. -/
def paint_pixel (st : BotState) (canvas_x canvas_y : Int) (template_pixel : RGBA)
    (resp : PaintResponse) : Option (BotState × PaintRequest) :=
  let req : PaintRequest :=
    { pixelId := xy_to_pixel_id canvas_x canvas_y
      newColor := rgba_to_hex template_pixel }
  match resp with
  | .failure => none
  | .success newBalance =>
    let st1 := { st with charges := st.charges - 1 }
    if newBalance > st1.balance then some ({ st1 with balance := newBalance }, req)
    else some (st1, req)

/-- Inner (`tx`) loop of `NotPXBot._paint_pixels` for row `ty`: break when
charges reach zero; read the canvas pixel at
`(template_y + ty, template_x + tx)`; skip alpha-zero template pixels;
on an RGB mismatch issue one paint request (the `reqs.length`-th response of
the oracle `resps`) and continue with the new state. The issued requests are
accumulated in order. -/
def scanCols (tmpl : Nat → Nat → RGBA) (template_x template_y : Int) (ty : Nat)
    (resps : Nat → PaintResponse) :
    List Nat → BotState → List PaintRequest → Option (BotState × List PaintRequest)
  | [], st, reqs => some (st, reqs)
  | tx :: rest, st, reqs =>
    if st.charges ≤ 0 then some (st, reqs)
    else do
      let canvas_x := template_x + (tx : Int)
      let canvas_y := template_y + (ty : Int)
      let template_pixel := tmpl ty tx
      let canvas_pixel ← canvasPixelRGB st.canvas canvas_y canvas_x
      if template_pixel.a = 0 then
        scanCols tmpl template_x template_y ty resps rest st reqs
      else if (template_pixel.r, template_pixel.g, template_pixel.b) ≠ canvas_pixel then do
        let r ← paint_pixel st canvas_x canvas_y template_pixel (resps reqs.length)
        scanCols tmpl template_x template_y ty resps rest r.1 (reqs ++ [r.2])
      else
        scanCols tmpl template_x template_y ty resps rest st reqs

/-- Outer (`ty`) loop of `NotPXBot._paint_pixels`: break when charges reach
zero, otherwise scan the row's columns. -/
def scanRows (tmpl : Nat → Nat → RGBA) (template_x template_y : Int) (size : Nat)
    (resps : Nat → PaintResponse) :
    List Nat → BotState → List PaintRequest → Option (BotState × List PaintRequest)
  | [], st, reqs => some (st, reqs)
  | ty :: rest, st, reqs =>
    if st.charges ≤ 0 then some (st, reqs)
    else do
      let r ← scanCols tmpl template_x template_y ty resps (List.range size) st reqs
      scanRows tmpl template_x template_y size resps rest r.1 r.2

/-- The scan of `NotPXBot._paint_pixels` (the loop body of its `try` block,
after the template has been fetched and reshaped): rows then columns over
`[0, template_size)`, with the per-request outcomes given by the oracle
`resps`. Returns the final painter state and the requests issued, in order. -/
def paint_template_scan (tmpl : Nat → Nat → RGBA) (template_size : Nat)
    (template_x template_y : Int) (resps : Nat → PaintResponse) (st : BotState) :
    Option (BotState × List PaintRequest) :=
  scanRows tmpl template_x template_y template_size resps (List.range template_size) st []

/-! ## Fixtures and read-back helpers used by the theorems -/

/-- Byte `j` of the four-byte pattern `(r, g, b, 255)` a color write stores
(uint8: mod 256). -/
def patByte (r g b : Int) (j : Nat) : Nat :=
  if j = 0 then (r % 256).toNat
  else if j = 1 then (g % 256).toNat
  else if j = 2 then (b % 256).toNat
  else 255

/-- The four bytes of pixel `id` hold color `(r, g, b)` with alpha 255. -/
def hasColorAt (c : Canvas) (r g b : Int) (id : Nat) : Prop :=
  ∀ j, j < 4 → c ((id - 1) * 4 + j) = patByte r g b j

/-- The canvas obtained by painting pixel 2 red on a zeroed canvas through
the pixel-event id loop. -/
def redAtTwo : Canvas :=
  (paintIds zeroCanvas "#FF0000" [2]).getD zeroCanvas

/-- A 2×2 template whose top-left pixel is opaque red and whose other pixels
are opaque black (matching a zeroed canvas's RGB). -/
def tmplTopLeftRed : Nat → Nat → RGBA := fun ty tx =>
  if ty = 0 ∧ tx = 0 then ⟨255, 0, 0, 255⟩ else ⟨0, 0, 0, 255⟩

/-- A template that is opaque red everywhere (every pixel mismatches a
zeroed canvas). -/
def tmplAllRed : Nat → Nat → RGBA := fun _ _ => ⟨255, 0, 0, 255⟩

/-- The canvas obtained by applying the pixel event `{"#FF0000": [2]}`
through `update_canvas` to a zeroed canvas. -/
def redAtTwoEvent : Canvas :=
  (update_canvas zeroCanvas "pixel:message"
    (ChannelData.pixelMap [("#FF0000", [2])])).getD zeroCanvas

/-- Request oracle in which every `repaint/start` call succeeds with a
response balance of 1. -/
def alwaysOkPaint : Nat → PaintResponse := fun _ => .success 1

/-- Painter start state for the 2×2 scan example: 5 charges, balance 0, a
zeroed canvas snapshot. -/
def painterStart : BotState := ⟨5, 0, zeroCanvas⟩

/-! ## Theorems for the claims -/

/-- Claim C4: the pixel codec's linear-id/coordinate maps are exact mutual
inverses: `xyToId(idToXY(id)) = id` for every id in `[1, 1000000]`, and
`idToXY(xyToId(x, y)) = (x, y)` for every `0 ≤ x, y < 1000`. -/
theorem c4_codec_inverses :
    (∀ id : Int, 1 ≤ id → id ≤ 1000000 →
      xy_to_pixel_id (pixel_id_to_xy id).1 (pixel_id_to_xy id).2 = id) ∧
    (∀ x y : Int, 0 ≤ x → x < 1000 → 0 ≤ y → y < 1000 →
      pixel_id_to_xy (xy_to_pixel_id x y) = (x, y)) := by
  constructor
  · intro id h1 h2
    simp only [pixel_id_to_xy, xy_to_pixel_id, CANVAS_SIZE, Nat.cast_ofNat]
    omega
  · intro x y hx0 hx hy0 hy
    simp only [pixel_id_to_xy, xy_to_pixel_id, CANVAS_SIZE, Nat.cast_ofNat,
      Prod.mk.injEq]
    refine ⟨?_, ?_⟩ <;> omega

/-- Witness for C4 at id 123456 and coordinates (7, 3). -/
theorem c4_codec_inverses_witness :
    xy_to_pixel_id (pixel_id_to_xy 123456).1 (pixel_id_to_xy 123456).2 = 123456 ∧
    pixel_id_to_xy (xy_to_pixel_id 7 3) = (7, 3) :=
  ⟨c4_codec_inverses.1 123456 (by decide) (by decide),
   c4_codec_inverses.2 7 3 (by decide) (by decide) (by decide) (by decide)⟩

/-- Counterexample to claim C5: an input with seven hex digits after the
`#` does not fail — `hexToRGB "#FF86000"` returns `(255, 134, 0)`. -/
theorem c5_counterexample :
    hex_to_rgb "#FF86000" = some (255, 134, 0) ∧
    hex_to_rgb "#FF86000" ≠ none := by
  exact ⟨by decide, by decide⟩

/-- Claim C5 (amended): `hexToRGB` parses the character slices `[1:3]`,
`[3:5]`, `[5:7]` as base-16 integers (`hexToRGB "#FF8600" = (255, 134, 0)`),
failing only when one of those slices fails to parse; any input of length at
most 5 fails, while characters beyond index 6 are ignored, so inputs with
more (or exactly five) hex digits after `#` succeed. -/
theorem c5_hex_to_rgb :
    hex_to_rgb "#FF8600" = some (255, 134, 0) ∧
    (∀ s : String, s.length ≤ 5 → hex_to_rgb s = none) ∧
    hex_to_rgb "#FF86000" = some (255, 134, 0) ∧
    hex_to_rgb "#FFFFF" = some (255, 255, 15) := by
  refine ⟨by decide, ?_, by decide, by decide⟩
  intro s hs
  have hlen : s.toList.length ≤ 5 := hs
  have hdrop : s.toList.drop 5 = [] := List.drop_eq_nil_of_le hlen
  have hslice : pySlice s 5 7 = "" := by
    unfold pySlice
    rw [hdrop]
    rfl
  have hz : pyIntHex16 (pySlice s 5 7) = none := by
    rw [hslice]; rfl
  cases h1 : pyIntHex16 (pySlice s 1 3) with
  | none => simp [hex_to_rgb, h1]
  | some r =>
    cases h2 : pyIntHex16 (pySlice s 3 5) with
    | none => simp [hex_to_rgb, h1, h2]
    | some g => simp [hex_to_rgb, h1, h2, hz]

/-- Witness for C5's universally quantified part at the short string
`"#FF"`. -/
theorem c5_hex_to_rgb_witness :
    ("#FF" : String).length ≤ 5 ∧ hex_to_rgb "#FF" = none :=
  ⟨by decide, c5_hex_to_rgb.2.1 "#FF" (by decide)⟩

/-- Counterexample to claim C6: a token that decodes to a payload lacking an
`exp` claim is not "considered expired" — the check raises `KeyError`
instead of returning `true`. -/
theorem c6_counterexample :
    is_token_expired TokenView.payloadNoExp 0 = Except.error "KeyError" ∧
    is_token_expired TokenView.payloadNoExp 0 ≠ Except.ok true := by
  refine ⟨rfl, ?_⟩
  intro h
  exact Except.noConfusion h

/-- Claim C6 (amended): the expiry check returns `true` for an absent token
or a `jwt.InvalidTokenError` decode failure, compares `now + 5 minutes ≥
exp` otherwise (so `exp = now + 1 min` is expired and `exp = now + 1 hour`
is not), but a decodable payload lacking an `exp` claim raises `KeyError`
rather than being treated as expired. -/
theorem c6_token_expiry :
    ∀ now : Int,
      is_token_expired TokenView.absent now = Except.ok true ∧
      is_token_expired TokenView.undecodable now = Except.ok true ∧
      is_token_expired (TokenView.payloadExp (now + 60)) now = Except.ok true ∧
      is_token_expired (TokenView.payloadExp (now + 3600)) now = Except.ok false ∧
      is_token_expired TokenView.payloadNoExp now = Except.error "KeyError" ∧
      (∀ exp : Int, is_token_expired (TokenView.payloadExp exp) now =
        Except.ok (decide (now + 5 * 60 ≥ exp))) := by
  intro now
  refine ⟨rfl, rfl, ?_, ?_, rfl, fun exp => rfl⟩
  · simp only [is_token_expired, Except.ok.injEq, decide_eq_true_eq]
    omega
  · simp only [is_token_expired, Except.ok.injEq, decide_eq_false_iff_not]
    omega

/-- Counterexample to claim C3: `setPixel` with the out-of-range id 0 does
modify the canvas buffer (numpy resolves byte index `-4` to `3999996`
and writes the red component there). -/
theorem c3_counterexample :
    (set_pixel zeroCanvas 0 "#FF0000").map (fun c => c 3999996) ≠
      some (zeroCanvas 3999996) := by decide

/-- Claim C3 (amended): every pixel-id strictly greater than 1000000 is a
no-op for `setPixel`, for the pixel branch's id loop, and for the square
branch (no exception, no write); ids at or below 0 are not rejected. -/
theorem c3_out_of_range_upper :
    (∀ (c : Canvas) (id : Int) (hex : String), id > 1000000 →
      set_pixel c id hex = some c) ∧
    (∀ (c : Canvas) (hex : String) (id : Int) (rest : List Int), id > 1000000 →
      paintIds c hex (id :: rest) = paintIds c hex rest) ∧
    (∀ (c : Canvas) (d : SquareDatum) (rest : List SquareDatum), d.pixel > 1000000 →
      paint_squares c (d :: rest) = paint_squares c rest) := by
  refine ⟨?_, ?_, ?_⟩
  · intro c id hex h
    simp only [set_pixel, CANVAS_SIZE, Nat.cast_ofNat]
    rw [if_pos (by omega)]
  · intro c hex id rest h
    simp only [paintIds, CANVAS_SIZE, Nat.cast_ofNat]
    rw [if_pos (by omega)]
  · intro c d rest h
    simp only [paint_squares, CANVAS_SIZE, Nat.cast_ofNat]
    rw [if_pos (by omega)]

/-- Witness for C3's amended statement at id 1000001. -/
theorem c3_out_of_range_upper_witness :
    set_pixel zeroCanvas 1000001 "#FF0000" = some zeroCanvas ∧
    paintIds zeroCanvas "#FF0000" [1000001] = paintIds zeroCanvas "#FF0000" [] ∧
    paint_squares zeroCanvas [⟨1000001, "Pumpkin"⟩] = paint_squares zeroCanvas [] :=
  ⟨c3_out_of_range_upper.1 zeroCanvas 1000001 "#FF0000" (by decide),
   c3_out_of_range_upper.2.1 zeroCanvas "#FF0000" 1000001 [] (by decide),
   c3_out_of_range_upper.2.2 zeroCanvas ⟨1000001, "Pumpkin"⟩ [] (by decide)⟩

/-- Claim C1 (code bug evaluation): the in-range Dynamite event at center id
500500 = (499, 500) raises no exception but paints a 1×25 horizontal strip,
not a 5×5 square: cell offsets are `(i % 1000, i // 1000) = (i, 0)`, so
pixel (521, 498) — twenty columns beyond the claimed square — is painted,
while (497, 499), inside the claimed square, is untouched. -/
theorem c1_square_event_paints_strip :
    (update_canvas zeroCanvas "event:message"
        (ChannelData.squares [⟨500500, "Dynamite"⟩])).map
        (fun c => (readPixelXY c 521 498, readPixelXY c 497 499)) =
      some ((23, 31, 42, 255), (0, 0, 0, 0)) := by decide

/-- Claim C10: the sentinel-color skip is exact, case-sensitive string
equality against `"#171F2A"`: the lowercase spelling `"#171f2a"` is not
skipped, and its listed pixel 1 is painted with RGBA (23, 31, 42, 255). -/
theorem c10_sentinel_case_sensitive :
    "#171f2a" ≠ "#171F2A" ∧
    (update_canvas zeroCanvas "pixel:message"
        (ChannelData.pixelMap [("#171f2a", [1])])).map (fun c => readPixel c 1) =
      some (23, 31, 42, 255) := by
  exact ⟨by decide, by decide⟩

/-- Claim C7: `switchToNext` advances circularly: with sessions [A, B, C] and
A active one call activates B, three consecutive calls cycle A→B→C→A, an
empty pool raises the no-available-sessions error, and wrapping back to the
same index (a single-session pool) raises it as well; in general, with the
active session found at index `i` of a pool of at least two, the session at
`(i + 1) % length` becomes active. -/
theorem c7_switch_to_next :
    switch_to_next_session ⟨["A", "B", "C"], some "A"⟩ =
      Except.ok ⟨["A", "B", "C"], some "B"⟩ ∧
    switch_to_next_session ⟨["A", "B", "C"], some "B"⟩ =
      Except.ok ⟨["A", "B", "C"], some "C"⟩ ∧
    switch_to_next_session ⟨["A", "B", "C"], some "C"⟩ =
      Except.ok ⟨["A", "B", "C"], some "A"⟩ ∧
    switch_to_next_session ⟨[], none⟩ = Except.error "NoAvailableSessionsError" ∧
    switch_to_next_session ⟨["A"], some "A"⟩ = Except.error "NoAvailableSessionsError" ∧
    (∀ (sess : List String) (aid : String) (i : Nat),
      sess.findIdx? (fun s => s = aid) = some i → 2 ≤ sess.length →
      switch_to_next_session ⟨sess, some aid⟩ =
        Except.ok ⟨sess, sess.get? ((i + 1) % sess.length)⟩) := by
  refine ⟨rfl, rfl, rfl, rfl, rfl, ?_⟩
  intro sess aid i hfind hlen
  obtain ⟨hi, -, -⟩ := List.findIdx?_eq_some_iff_getElem.mp hfind
  have hne : sess.isEmpty = false := by
    cases sess with
    | nil => simp at hlen
    | cons a l => rfl
  have hcur : currentIndex ⟨sess, some aid⟩ = (i : Int) := by
    simp [currentIndex, hfind]
  have hcast : ((i : Int) + 1) % ((sess.length : Nat) : Int) =
      (((i + 1) % sess.length : Nat) : Int) := by
    rw [Int.ofNat_emod]
    norm_cast
  have hmodlt : (i + 1) % sess.length < sess.length := Nat.mod_lt _ (by omega)
  have hneqNat : (i + 1) % sess.length ≠ i := by
    rcases Nat.lt_or_ge (i + 1) sess.length with h | h
    · rw [Nat.mod_eq_of_lt h]; omega
    · have hw : i + 1 = sess.length := by omega
      rw [hw, Nat.mod_self]; omega
  cases hg : sess.get? ((i + 1) % sess.length) with
  | none => exact absurd (List.get?_eq_none.mp hg) (by omega)
  | some v =>
    simp only [switch_to_next_session, hne, Bool.false_eq_true, if_false, hcur, hcast]
    rw [if_neg (by exact_mod_cast hneqNat)]
    simp only [Int.toNat_natCast, hg]

/-- Witness for C7's general circular-advance part on the pool [A, B]. -/
theorem c7_switch_to_next_witness :
    switch_to_next_session ⟨["A", "B"], some "A"⟩ =
      Except.ok ⟨["A", "B"], ["A", "B"].get? ((0 + 1) % (["A", "B"] : List String).length)⟩ :=
  c7_switch_to_next.2.2.2.2.2 ["A", "B"] "A" 0 rfl (by decide)

/-! ## Canvas-write lemmas shared by the pixel-event claims -/

lemma resolveIdx_spec {L : Nat} {i : Int} {k : Nat} (h : resolveIdx L i = some k) :
    k < L ∧ ((k : Int) = i ∨ (k : Int) = (L : Int) + i) := by
  unfold resolveIdx at h
  split at h
  · rename_i hc
    injection h with h
    omega
  · split at h
    · rename_i hc2
      injection h with h
      omega
    · cases h

lemma npSetByte_eq {c c' : Canvas} {i v : Int} (h : npSetByte c i v = some c') :
    ∃ k : Nat, k < CANVAS_BYTES ∧
      ((k : Int) = i ∨ (k : Int) = (CANVAS_BYTES : Int) + i) ∧
      c' = Function.update c k ((v % 256).toNat) := by
  unfold npSetByte at h
  cases hr : resolveIdx CANVAS_BYTES i with
  | none => rw [hr] at h; cases h
  | some k =>
    rw [hr] at h
    obtain ⟨hk1, hk2⟩ := resolveIdx_spec hr
    refine ⟨k, hk1, hk2, ?_⟩
    injection h with h
    exact h.symm

lemma npSetByte_keep {c c' : Canvas} {i v : Int} {p T : Nat}
    (h : npSetByte c i v = some c')
    (hval : ((p : Int) = i ∨ (p : Int) = (CANVAS_BYTES : Int) + i) → ((v % 256).toNat = T))
    (hc : c p = T) : c' p = T := by
  obtain ⟨k, hkL, hki, rfl⟩ := npSetByte_eq h
  by_cases hpk : p = k
  · subst hpk
    rw [Function.update_same]
    exact hval hki
  · rw [Function.update_noteq hpk]
    exact hc

lemma canvas_bytes_val : (CANVAS_BYTES : Int) = 4000000 := by
  norm_num [CANVAS_BYTES, CANVAS_SIZE]

/-- A write of the same color pattern anywhere at a 4-aligned base preserves
the target pixel's bytes: any colliding byte store is congruent mod 4 to the
byte it overwrites and therefore stores the identical value. -/
lemma writeRGBA_keep {c c' : Canvas} {base r g b : Int}
    (hw : writeRGBA c base r g b = some c')
    (hb : base % 4 = 0)
    {p : Nat} {j : Nat} (hj : j < 4) (hp : (p : Int) % 4 = (j : Int))
    (hc : c p = patByte r g b j) : c' p = patByte r g b j := by
  have hCB := canvas_bytes_val
  unfold writeRGBA at hw
  obtain ⟨c1, h1, hw⟩ := Option.bind_eq_some.mp hw
  obtain ⟨c2, h2, hw⟩ := Option.bind_eq_some.mp hw
  obtain ⟨c3, h3, h4⟩ := Option.bind_eq_some.mp hw
  have k1 : c1 p = patByte r g b j := by
    refine npSetByte_keep h1 (fun hcase => ?_) hc
    have hj0 : j = 0 := by omega
    subst hj0
    simp [patByte]
  have k2 : c2 p = patByte r g b j := by
    refine npSetByte_keep h2 (fun hcase => ?_) k1
    have hj1 : j = 1 := by omega
    subst hj1
    simp [patByte]
  have k3 : c3 p = patByte r g b j := by
    refine npSetByte_keep h3 (fun hcase => ?_) k2
    have hj2 : j = 2 := by omega
    subst hj2
    simp [patByte]
  refine npSetByte_keep h4 (fun hcase => ?_) k3
  have hj3 : j = 3 := by omega
  subst hj3
  simp [patByte]

/-- A write at the target pixel's own base establishes its bytes. -/
lemma writeRGBA_write {c c' : Canvas} {r g b : Int} {id : Nat}
    (h1 : 1 ≤ id) (h2 : id ≤ 1000000)
    (hw : writeRGBA c (((id : Int) - 1) * 4) r g b = some c')
    (j : Nat) (hj : j < 4) :
    c' ((id - 1) * 4 + j) = patByte r g b j := by
  have hCB := canvas_bytes_val
  unfold writeRGBA at hw
  obtain ⟨c1, hs1, hw⟩ := Option.bind_eq_some.mp hw
  obtain ⟨c2, hs2, hw⟩ := Option.bind_eq_some.mp hw
  obtain ⟨c3, hs3, hs4⟩ := Option.bind_eq_some.mp hw
  obtain ⟨k0, hk0L, hk0, rfl⟩ := npSetByte_eq hs1
  obtain ⟨k1, hk1L, hk1, rfl⟩ := npSetByte_eq hs2
  obtain ⟨k2, hk2L, hk2, rfl⟩ := npSetByte_eq hs3
  obtain ⟨k3, hk3L, hk3, rfl⟩ := npSetByte_eq hs4
  have e0 : k0 = (id - 1) * 4 := by omega
  have e1 : k1 = (id - 1) * 4 + 1 := by omega
  have e2 : k2 = (id - 1) * 4 + 2 := by omega
  have e3 : k3 = (id - 1) * 4 + 3 := by omega
  subst e0 e1 e2 e3
  interval_cases j
  · simp only [Nat.add_zero]
    rw [Function.update_noteq (by omega), Function.update_noteq (by omega),
      Function.update_noteq (by omega), Function.update_same]
    simp [patByte]
  · rw [Function.update_noteq (by omega), Function.update_noteq (by omega),
      Function.update_same]
    simp [patByte]
  · rw [Function.update_noteq (by omega), Function.update_same]
    simp [patByte]
  · rw [Function.update_same]
    simp [patByte]

/-- Processing one color entry's id list paints (and never un-paints) the
target pixel: if the target id is listed, or its bytes already hold the
entry's color, they hold it afterwards. Collisions are harmless because
every byte store of the entry writes the same four-byte pattern at
4-aligned offsets. -/
lemma paintIds_mem {s : String} {r g b : Int} (hs : hex_to_rgb s = some (r, g, b))
    {id : Nat} (h1 : 1 ≤ id) (h2 : id ≤ 1000000) :
    ∀ (ids : List Int) (c c' : Canvas), paintIds c s ids = some c' →
      (hasColorAt c r g b id ∨ (id : Int) ∈ ids) → hasColorAt c' r g b id := by
  intro ids
  induction ids with
  | nil =>
    intro c c' hp hd
    unfold paintIds at hp
    injection hp with hp
    subst hp
    rcases hd with hd | hd
    · exact hd
    · cases hd
  | cons id0 rest ih =>
    intro c c' hp hd
    unfold paintIds at hp
    have hcs : ((CANVAS_SIZE : Int) * (CANVAS_SIZE : Int)) = 1000000 := by
      norm_num [CANVAS_SIZE]
    by_cases h0 : id0 > ((CANVAS_SIZE : Int) * (CANVAS_SIZE : Int))
    · rw [if_pos h0] at hp
      refine ih _ _ hp ?_
      rcases hd with hd | hd
      · exact .inl hd
      · rcases List.mem_cons.mp hd with hEq | hmem2
        · exfalso
          rw [hcs] at h0
          omega
        · exact .inr hmem2
    · rw [if_neg h0] at hp
      obtain ⟨rgbv, hrg, hp⟩ := Option.bind_eq_some.mp hp
      rw [hs] at hrg
      injection hrg with hrg
      subst hrg
      obtain ⟨c1, hw, hp⟩ := Option.bind_eq_some.mp hp
      rcases hd with hkeep | hmem
      · refine ih _ _ hp (.inl ?_)
        intro j hj
        refine writeRGBA_keep hw (by omega) hj (by omega) (hkeep j hj)
      · rcases List.mem_cons.mp hmem with hEq | hmem2
        · refine ih _ _ hp (.inl ?_)
          intro j hj
          rw [← hEq] at hw
          exact writeRGBA_write h1 h2 hw j hj
        · exact ih _ _ hp (.inr hmem2)

/-- Claim C2: a pixel event skips the sentinel color `"#171F2A"` entirely
and writes every other entry's RGB with alpha 255 to each listed in-range
pixel id; in particular the map `{"#171F2A": [5, 9]}` leaves the canvas
unchanged, and `{"#FF0000": [1]}` makes pixel 1 read (255, 0, 0, 255). -/
theorem c2_pixel_event :
    (∀ (c : Canvas) (ids : List Int) (rest : List (String × List Int)),
      paint_pixels c (("#171F2A", ids) :: rest) = paint_pixels c rest) ∧
    (∀ (s : String) (r g b : Int) (c c' : Canvas) (ids : List Int) (id : Nat),
      hex_to_rgb s = some (r, g, b) →
      0 ≤ r → r < 256 → 0 ≤ g → g < 256 → 0 ≤ b → b < 256 →
      paintIds c s ids = some c' → (id : Int) ∈ ids → 1 ≤ id → id ≤ 1000000 →
      readPixel c' id = (r.toNat, g.toNat, b.toNat, 255)) ∧
    (∀ (s : String) (r g b : Int) (c c' : Canvas) (ids : List Int) (id : Nat),
      s ≠ "#171F2A" → hex_to_rgb s = some (r, g, b) →
      0 ≤ r → r < 256 → 0 ≤ g → g < 256 → 0 ≤ b → b < 256 →
      update_canvas c "pixel:message" (ChannelData.pixelMap [(s, ids)]) = some c' →
      (id : Int) ∈ ids → 1 ≤ id → id ≤ 1000000 →
      readPixel c' id = (r.toNat, g.toNat, b.toNat, 255)) ∧
    (∀ c : Canvas, update_canvas c "pixel:message"
        (ChannelData.pixelMap [("#171F2A", [5, 9])]) = some c) ∧
    (update_canvas zeroCanvas "pixel:message"
        (ChannelData.pixelMap [("#FF0000", [1])])).map (fun c => readPixel c 1) =
      some (255, 0, 0, 255) := by
  have key : ∀ (s : String) (r g b : Int) (c c' : Canvas) (ids : List Int) (id : Nat),
      hex_to_rgb s = some (r, g, b) →
      0 ≤ r → r < 256 → 0 ≤ g → g < 256 → 0 ≤ b → b < 256 →
      paintIds c s ids = some c' → (id : Int) ∈ ids → 1 ≤ id → id ≤ 1000000 →
      readPixel c' id = (r.toNat, g.toNat, b.toNat, 255) := by
    intro s r g b c c' ids id hs hr0 hr hg0 hg hb0 hb hp hmem h1 h2
    have h := paintIds_mem hs h1 h2 ids c c' hp (.inr hmem)
    have e0 := h 0 (by omega)
    have e1 := h 1 (by omega)
    have e2 := h 2 (by omega)
    have e3 := h 3 (by omega)
    simp only [Nat.add_zero] at e0
    have hrr : r % 256 = r := Int.emod_eq_of_lt hr0 hr
    have hgg : g % 256 = g := Int.emod_eq_of_lt hg0 hg
    have hbb : b % 256 = b := Int.emod_eq_of_lt hb0 hb
    unfold readPixel
    rw [e0, e1, e2, e3]
    simp [patByte, hrr, hgg, hbb]
  refine ⟨?_, key, ?_, ?_, by decide⟩
  · intro c ids rest
    simp [paint_pixels]
  · intro s r g b c c' ids id hsne hs hr0 hr hg0 hg hb0 hb hp hmem h1 h2
    have hch : update_canvas c "pixel:message" (ChannelData.pixelMap [(s, ids)]) =
        paint_pixels c [(s, ids)] := by
      unfold update_canvas
      rw [if_neg (by decide), if_pos rfl]
    rw [hch] at hp
    unfold paint_pixels at hp
    rw [if_neg hsne] at hp
    obtain ⟨c1, hids, hp⟩ := Option.bind_eq_some.mp hp
    unfold paint_pixels at hp
    injection hp with hp
    subst hp
    exact key s r g b c c1 ids id hs hr0 hr hg0 hg hb0 hb hids hmem h1 h2
  · intro c
    simp [update_canvas, paint_pixels, paintIds]

/-- Witness for C2's universally quantified write statement: painting pixel 2
with `"#FF0000"` makes it read (255, 0, 0, 255). -/
theorem c2_pixel_event_witness :
    readPixel redAtTwo 2 = (255, 0, 0, 255) ∧
    readPixel redAtTwoEvent 2 = (255, 0, 0, 255) :=
  ⟨c2_pixel_event.2.1 "#FF0000" 255 0 0 zeroCanvas redAtTwo [2] 2 (by decide)
     (by decide) (by decide) (by decide) (by decide) (by decide) (by decide)
     rfl (by decide) (by decide) (by decide),
   c2_pixel_event.2.2.1 "#FF0000" 255 0 0 zeroCanvas redAtTwoEvent [2] 2 (by decide)
     (by decide) (by decide) (by decide) (by decide) (by decide) (by decide)
     (by decide) rfl (by decide) (by decide) (by decide)⟩

/-! ## Painter-scan invariants shared by the template-painter claims -/

/-- One successful `_paint_pixel` call decrements the charge counter by
exactly one and leaves the canvas snapshot untouched. -/
lemma paint_pixel_state {st : BotState} {cx cy : Int} {tp : RGBA}
    {resp : PaintResponse} {r : BotState × PaintRequest}
    (h : paint_pixel st cx cy tp resp = some r) :
    r.1.canvas = st.canvas ∧ r.1.charges = st.charges - 1 := by
  unfold paint_pixel at h
  cases resp with
  | failure => cases h
  | success nb =>
    dsimp only at h
    split at h <;> (injection h with h; subst h; exact ⟨rfl, rfl⟩)

/-- Column-loop invariant: the canvas is never written and charges drop by
exactly the number of requests issued. -/
lemma scanCols_state {tmpl : Nat → Nat → RGBA} {tx0 ty0 : Int} {ty : Nat}
    {resps : Nat → PaintResponse} :
    ∀ (txs : List Nat) (st : BotState) (reqs : List PaintRequest)
      (r : BotState × List PaintRequest),
      scanCols tmpl tx0 ty0 ty resps txs st reqs = some r →
      r.1.canvas = st.canvas ∧
      r.1.charges + (r.2.length : Int) = st.charges + (reqs.length : Int) := by
  intro txs
  induction txs with
  | nil =>
    intro st reqs r h
    unfold scanCols at h
    injection h with h
    subst h
    exact ⟨rfl, rfl⟩
  | cons tx rest ih =>
    intro st reqs r h
    unfold scanCols at h
    by_cases hch : st.charges ≤ 0
    · rw [if_pos hch] at h
      injection h with h
      subst h
      exact ⟨rfl, rfl⟩
    · rw [if_neg hch] at h
      obtain ⟨cpx, hc, h⟩ := Option.bind_eq_some.mp h
      by_cases ha : (tmpl ty tx).a = 0
      · rw [if_pos ha] at h
        exact ih _ _ _ h
      · rw [if_neg ha] at h
        by_cases hm : ((tmpl ty tx).r, (tmpl ty tx).g, (tmpl ty tx).b) ≠ cpx
        · rw [if_pos hm] at h
          obtain ⟨pr, hpp, h⟩ := Option.bind_eq_some.mp h
          obtain ⟨hcanv, hch1⟩ := paint_pixel_state hpp
          obtain ⟨ih1, ih2⟩ := ih _ _ _ h
          refine ⟨by rw [ih1, hcanv], ?_⟩
          rw [List.length_append] at ih2
          simp only [List.length_cons, List.length_nil] at ih2
          omega
        · rw [if_neg hm] at h
          exact ih _ _ _ h

/-- Row-loop invariant: the canvas is never written and charges drop by
exactly the number of requests issued. -/
lemma scanRows_state {tmpl : Nat → Nat → RGBA} {tx0 ty0 : Int} {size : Nat}
    {resps : Nat → PaintResponse} :
    ∀ (tys : List Nat) (st : BotState) (reqs : List PaintRequest)
      (r : BotState × List PaintRequest),
      scanRows tmpl tx0 ty0 size resps tys st reqs = some r →
      r.1.canvas = st.canvas ∧
      r.1.charges + (r.2.length : Int) = st.charges + (reqs.length : Int) := by
  intro tys
  induction tys with
  | nil =>
    intro st reqs r h
    unfold scanRows at h
    injection h with h
    subst h
    exact ⟨rfl, rfl⟩
  | cons ty rest ih =>
    intro st reqs r h
    unfold scanRows at h
    by_cases hch : st.charges ≤ 0
    · rw [if_pos hch] at h
      injection h with h
      subst h
      exact ⟨rfl, rfl⟩
    · rw [if_neg hch] at h
      obtain ⟨rc, hcols, h⟩ := Option.bind_eq_some.mp h
      obtain ⟨hc1, hc2⟩ := scanCols_state _ _ _ _ hcols
      obtain ⟨ih1, ih2⟩ := ih _ _ _ h
      exact ⟨by rw [ih1, hc1], by omega⟩

/-- Claim C8: the template scan iterates rows then columns, stops as soon as
the charge counter is at zero (before any request), and decrements the
counter by exactly one per issued request; on the 2×2 fixture with only the
top-left pixel differing and 5 charges, exactly one request is issued and
the counter drops to 4; on an all-mismatch 2×2 fixture with a single
charge, the scan stops mid-row after exactly one request. -/
theorem c8_template_scan :
    (∀ (tmpl : Nat → Nat → RGBA) (size : Nat) (tx0 ty0 : Int)
        (resps : Nat → PaintResponse) (st : BotState), st.charges ≤ 0 →
      paint_template_scan tmpl size tx0 ty0 resps st = some (st, [])) ∧
    (∀ (tmpl : Nat → Nat → RGBA) (size : Nat) (tx0 ty0 : Int)
        (resps : Nat → PaintResponse) (st st' : BotState) (reqs : List PaintRequest),
      paint_template_scan tmpl size tx0 ty0 resps st = some (st', reqs) →
      st'.charges = st.charges - (reqs.length : Int)) ∧
    paint_template_scan tmplTopLeftRed 2 0 0 alwaysOkPaint painterStart =
      some (⟨4, 1, zeroCanvas⟩, [⟨1, "#FF0000"⟩]) ∧
    paint_template_scan tmplAllRed 2 0 0 alwaysOkPaint ⟨1, 0, zeroCanvas⟩ =
      some (⟨0, 1, zeroCanvas⟩, [⟨1, "#FF0000"⟩]) := by
  refine ⟨?_, ?_, rfl, rfl⟩
  · intro tmpl size tx0 ty0 resps st hch
    unfold paint_template_scan
    cases hr : List.range size with
    | nil => rfl
    | cons a l =>
      unfold scanRows
      rw [if_pos hch]
  · intro tmpl size tx0 ty0 resps st st' reqs h
    have := scanRows_state _ _ _ _ h
    simp only [List.length_nil] at this
    omega

/-- Witness for C8's hypotheses: an exhausted painter (0 charges) stops with
no requests, and the 2×2 fixture run drops the counter by its one request. -/
theorem c8_template_scan_witness :
    paint_template_scan tmplTopLeftRed 2 0 0 alwaysOkPaint ⟨0, 7, zeroCanvas⟩ =
      some (⟨0, 7, zeroCanvas⟩, []) ∧
    (⟨4, 1, zeroCanvas⟩ : BotState).charges =
      painterStart.charges - (([⟨1, "#FF0000"⟩] : List PaintRequest).length : Int) :=
  ⟨c8_template_scan.1 tmplTopLeftRed 2 0 0 alwaysOkPaint ⟨0, 7, zeroCanvas⟩ (by decide),
   c8_template_scan.2.1 tmplTopLeftRed 2 0 0 alwaysOkPaint painterStart
     ⟨4, 1, zeroCanvas⟩ [⟨1, "#FF0000"⟩] c8_template_scan.2.2.1⟩

/-- Claim C9 (code bug evaluation): the painter never writes the canvas —
`set_pixel` is not called anywhere in the scan — so after the 2×2 fixture's
successful paint request for pixel 1 with `"#FF0000"`, the canvas still
reads (0, 0, 0, 0) at (0, 0). -/
theorem c9_no_local_prediction :
    (∀ (tmpl : Nat → Nat → RGBA) (size : Nat) (tx0 ty0 : Int)
        (resps : Nat → PaintResponse) (st st' : BotState) (reqs : List PaintRequest),
      paint_template_scan tmpl size tx0 ty0 resps st = some (st', reqs) →
      st'.canvas = st.canvas) ∧
    (paint_template_scan tmplTopLeftRed 2 0 0 alwaysOkPaint painterStart).map
        (fun r => (r.2, readPixelXY r.1.canvas 0 0)) =
      some ([⟨1, "#FF0000"⟩], (0, 0, 0, 0)) := by
  refine ⟨?_, rfl⟩
  intro tmpl size tx0 ty0 resps st st' reqs h
  exact (scanRows_state _ _ _ _ h).1

/-- Witness for C9's universally quantified part at the 2×2 fixture run. -/
theorem c9_no_local_prediction_witness :
    (⟨4, 1, zeroCanvas⟩ : BotState).canvas = painterStart.canvas :=
  c9_no_local_prediction.1 tmplTopLeftRed 2 0 0 alwaysOkPaint painterStart
    ⟨4, 1, zeroCanvas⟩ [⟨1, "#FF0000"⟩] rfl

end NotPx
